import Mathlib

/-!
Shallow embedding of the Impersonator repository:
`src/app/api/generate-lyrics/route.ts` (the POST request handler) and
`src/modules/home/ui/views/home-view.tsx` (the form client).

JavaScript runtime values that the handler inspects dynamically are
modelled by the inductive `JsVal`; JavaScript truthiness, property
access, `String(...)` conversion and `JSON.stringify` are modelled by
executable functions over `JsVal`.
-/

set_option autoImplicit false

namespace Impersonator

/-- Model of an untyped JavaScript value as the handler can observe it:
`undefined`, `null`, booleans, (integer) numbers, strings, arrays and
plain objects given as ordered field lists. -/
inductive JsVal where
  | vundefined : JsVal
  | vnull : JsVal
  | vbool : Bool → JsVal
  | vnum : Int → JsVal
  | vstr : String → JsVal
  | varr : List JsVal → JsVal
  | vobj : List (String × JsVal) → JsVal

/-- First field with the given name, as JavaScript property lookup on a
plain object literal (duplicate keys cannot occur in parsed JSON). -/
def lookupField : List (String × JsVal) → String → Option JsVal
  | [], _ => none
  | (k, v) :: rest, key => if k = key then some v else lookupField rest key

/-- JavaScript truthiness of a value (`NaN` is not representable in the
integer number model). -/
def jsTruthy : JsVal → Bool
  | .vundefined => false
  | .vnull => false
  | .vbool b => b
  | .vnum n => !(n == 0)
  | .vstr s => !(s == "")
  | .varr _ => true
  | .vobj _ => true

/-- A thrown JavaScript exception: either an `Error` instance carrying a
message, or an arbitrary thrown value. -/
inductive JsExn where
  | error : String → JsExn
  | other : JsVal → JsExn

mutual

/-- JavaScript `String(v)` conversion: `undefined`/`null` by name,
numbers in decimal, arrays joined by commas, plain objects as
`[object Object]`. -/
def jsToString : JsVal → String
  | .vundefined => "undefined"
  | .vnull => "null"
  | .vbool b => if b then "true" else "false"
  | .vnum n => toString n
  | .vstr s => s
  | .varr xs => jsToStringArr xs
  | .vobj _ => "[object Object]"

/-- Elements of `Array.prototype.toString`: `undefined` and `null`
become empty entries, and entries are joined by commas. -/
def jsToStringArr : List JsVal → String
  | [] => ""
  | [x] => jsToStringElem x
  | x :: rest => jsToStringElem x ++ "," ++ jsToStringArr rest

/-- One element of an array being stringified: like `String(v)` except
that `undefined` and `null` entries become empty text. -/
def jsToStringElem : JsVal → String
  | .vundefined => ""
  | .vnull => ""
  | .vbool b => if b then "true" else "false"
  | .vnum n => toString n
  | .vstr s => s
  | .varr xs => jsToStringArr xs
  | .vobj _ => "[object Object]"

end

/-- The message derived from a caught exception by
`err instanceof Error ? err.message : String(err)` (route.ts line 135). -/
def JsExn.toMessage : JsExn → String
  | .error m => m
  | .other v => jsToString v

/-- Escape one character for a JSON string literal. -/
def jsonEscapeChar (c : Char) : String :=
  if c = '\"' then "\\\""
  else if c = '\\' then "\\\\"
  else if c = '\n' then "\\n"
  else if c = '\t' then "\\t"
  else if c = '\r' then "\\r"
  else String.mk [c]

/-- A JSON string literal: quotes around the escaped characters. -/
def jsonQuote (s : String) : String :=
  "\"" ++ String.join (s.data.map jsonEscapeChar) ++ "\""

mutual

/-- `JSON.stringify` on the modelled values. It yields no string (the
JavaScript result `undefined`) exactly on `undefined`; object fields
whose value is `undefined` are dropped, array holes of `undefined`
serialize as `null`. -/
def jsonStringify : JsVal → Option String
  | .vundefined => none
  | .vnull => some "null"
  | .vbool b => some (if b then "true" else "false")
  | .vnum n => some (toString n)
  | .vstr s => some (jsonQuote s)
  | .varr xs => some ("[" ++ jsonStringifyArr xs ++ "]")
  | .vobj fs => some ("\x7b" ++ jsonStringifyFields fs ++ "\x7d")

/-- Array elements of `JSON.stringify`, comma separated, `undefined`
elements rendered as `null`. -/
def jsonStringifyArr : List JsVal → String
  | [] => ""
  | [x] => (jsonStringify x).getD "null"
  | x :: rest => (jsonStringify x).getD "null" ++ "," ++ jsonStringifyArr rest

/-- Object fields of `JSON.stringify`, comma separated, fields with an
`undefined` value dropped. -/
def jsonStringifyFields : List (String × JsVal) → String
  | [] => ""
  | [(k, v)] =>
    match jsonStringify v with
    | some s => jsonQuote k ++ ":" ++ s
    | none => ""
  | (k, v) :: rest =>
    match jsonStringify v with
    | some s =>
      let tail := jsonStringifyFields rest
      if tail = "" then jsonQuote k ++ ":" ++ s
      else jsonQuote k ++ ":" ++ s ++ "," ++ tail
    | none => jsonStringifyFields rest

end

/-- JavaScript `String.prototype.slice(0, n)` on the character model. -/
def jsSlice (s : String) (n : Nat) : String :=
  ⟨s.data.take n⟩

/-! Server side: `src/app/api/generate-lyrics/route.ts`. -/

/-- The parsed request body after destructuring `authorName`, `song`
and `description`: each field is a string or absent (`undefined`).
Absence models a missing JSON key. -/
structure Body where
  authorName : Option String
  song : Option String
  description : Option String

/-- The environment variables the route reads from `process.env`; each
is a string or unset. -/
structure Env where
  GENIUS_API_KEY : Option String
  GEMINI_API_KEY : Option String
  OPENROUTER_API_KEY : Option String
  OPENAI_API_KEY : Option String
  SITE_URL : Option String
  SITE_TITLE : Option String
  GEMINI_MODEL : Option String

/-- JavaScript truthiness of a string-or-undefined field: `undefined`
and the empty string are falsy, every other string is truthy. -/
def strTruthy : Option String → Bool
  | none => false
  | some s => !(s == "")

/-- JavaScript `a || b` on string-or-undefined values: `a` when truthy,
otherwise `b`. -/
def jsOrStr (a b : Option String) : Option String :=
  if strTruthy a then a else b

/-- The value of `process.env.GEMINI_API_KEY || process.env.OPENROUTER_API_KEY
|| process.env.OPENAI_API_KEY` (route.ts lines 56-59). -/
def geminiKey (env : Env) : Option String :=
  jsOrStr env.GEMINI_API_KEY (jsOrStr env.OPENROUTER_API_KEY env.OPENAI_API_KEY)

/-- Modelled from the spec: the ordered credential sources, first
non-empty wins, none configured yields no key. Used only to compare the
resolution in the code against the wording of the spec. -/
def firstNonEmptyKey : List (Option String) → Option String
  | [] => none
  | none :: rest => firstNonEmptyKey rest
  | some s :: rest => if s = "" then firstNonEmptyKey rest else some s

/-- The `lyrics` narrowing of route.ts lines 37-44: the value must be a
non-null object (`typeof g` equal to `object`) whose `lyrics` property
is a string. Arrays and null fail the property test. -/
def objLyricsField : JsVal → Option String
  | .vobj fs =>
    match lookupField fs "lyrics" with
    | some (.vstr s) => some s
    | _ => none
  | _ => none

/-- Extraction of `originalLyrics` from the Genius call, route.ts lines
31-51: a thrown call leaves the empty string; a string result is used
directly; an object with a string `lyrics` field yields that field;
otherwise `JSON.stringify(g).slice(0, 4000)` — and when `JSON.stringify`
yields `undefined` (`g` itself `undefined`) the `.slice` access throws a
TypeError that the same catch block swallows, leaving the empty string. -/
def extractOriginalLyrics : Except JsExn JsVal → String
  | .error _ => ""
  | .ok (.vstr s) => s
  | .ok g =>
    match objLyricsField g with
    | some s => s
    | none =>
      match jsonStringify g with
      | some s => jsSlice s 4000
      | none => ""

/-- Whether the Genius branch logged `console.warn` (route.ts line 50):
exactly when the call threw. -/
def geniusWarnedOf : Except JsExn JsVal → Bool
  | .error _ => true
  | .ok _ => false

/-- Fixed leading text of the prompt template up to and including the
`Original Lyrics:` header (route.ts line 54). -/
def promptIntro : String :=
  "You are a creative assistant that writes song lyrics in the style of the provided artist/song.\n\nOriginal Lyrics:\n"

/-- Fixed text of the prompt template between the lyrics and the
description (route.ts line 54). -/
def promptMid : String :=
  "\n\nDescription/Mood:\n"

/-- Fixed trailing text of the prompt template (route.ts line 54). -/
def promptTail : String :=
  "\n\nPlease generate an original set of lyrics inspired by the above (do not reproduce copyrighted lyrics)."

/-- Template-literal interpolation of a string-or-undefined value: the
string itself, or the text `undefined` for a missing value. -/
def templateVal : Option String → String
  | some s => s
  | none => "undefined"

/-- The prompt built at route.ts line 54. -/
def buildPrompt (originalLyrics : String) (description : Option String) : String :=
  promptIntro ++ originalLyrics ++ promptMid ++ templateVal description ++ promptTail

/-- Plain property access `v.k`: throws a TypeError on `null` and
`undefined`, yields `undefined` for a missing field and on primitives. -/
def jsPropE : JsVal → String → Except JsExn JsVal
  | .vundefined, k =>
    .error (.error ("Cannot read properties of undefined (reading " ++ k ++ ")"))
  | .vnull, k =>
    .error (.error ("Cannot read properties of null (reading " ++ k ++ ")"))
  | .vobj fs, k => .ok ((lookupField fs k).getD .vundefined)
  | _, _ => .ok .vundefined

/-- Optional-chained index `v?.[0]`: `undefined` on nullish values,
first element of an array, first character of a string, field `0` of an
object, `undefined` otherwise. -/
def jsOptIndex0 : JsVal → JsVal
  | .vundefined => .vundefined
  | .vnull => .vundefined
  | .varr xs => xs.headD .vundefined
  | .vstr s =>
    match s.data with
    | [] => .vundefined
    | c :: _ => .vstr (String.mk [c])
  | .vobj fs => (lookupField fs "0").getD .vundefined
  | _ => .vundefined

/-- Optional-chained property access `v?.k`: `undefined` on nullish
values and on values without the field. -/
def jsOptProp : JsVal → String → JsVal
  | .vundefined, _ => .vundefined
  | .vnull, _ => .vundefined
  | .vobj fs, k => (lookupField fs k).getD .vundefined
  | _, _ => .vundefined

/-- Mapping of one content part, route.ts lines 113-123: a string part
is kept, a non-null object part with a string `text` field yields that
field, anything else yields the empty string. -/
def partText : JsVal → String
  | .vstr s => s
  | .vobj fs =>
    match lookupField fs "text" with
    | some (.vstr t) => t
    | _ => ""
  | _ => ""

/-- The `message?.content` branch of the extraction, route.ts lines
107-130: when the content is truthy, a string content is used as-is,
an array content is the concatenation of its mapped parts, any other
content is `String(content)`; when the content is falsy, the whole
message is `JSON.stringify`-ed. -/
def extractLyricsContent (message : JsVal) : String :=
  let c := jsOptProp message "content"
  if jsTruthy c then
    match c with
    | .vstr s => s
    | .varr xs => String.join (xs.map partText)
    | _ => jsToString c
  else (jsonStringify message).getD ""

/-- Extraction of the response text from `message`, route.ts lines
102-130: falsy message yields the empty string; a (truthy) string
message is used directly; any other truthy message goes through the
content branch. -/
def extractLyricsFromMessage (message : JsVal) : String :=
  if !(jsTruthy message) then ""
  else
    match message with
    | .vstr s => s
    | _ => extractLyricsContent message

/-- A JSON response body produced by the route: `NextResponse.json`
with either a `lyrics` payload or an `error` payload. -/
inductive RespBody where
  | lyrics : String → RespBody
  | error : String → RespBody
deriving DecidableEq, Repr

/-- Observable outcome of one invocation of the POST handler: HTTP
status, JSON body, whether the Genius call was started, whether the
Genius failure warning was logged, whether the completion call was
started, and the prompt handed to the completion call when it was. -/
structure HandlerOutcome where
  status : Nat
  respBody : RespBody
  geniusCalled : Bool
  geniusWarned : Bool
  completionCalled : Bool
  promptSent : Option String
deriving DecidableEq, Repr

/-- The POST handler of route.ts, lines 11-141, as a function of the
parsed body (or the exception `req.json()` threw), the environment, the
result of the Genius `getLyrics` call and the result of the completion
call (each a value or a thrown exception). -/
def POST (reqBody : Except JsExn Body) (env : Env)
    (gRes : Except JsExn JsVal) (cRes : Except JsExn JsVal) : HandlerOutcome :=
  match reqBody with
  | .error e => ⟨500, .error e.toMessage, false, false, false, none⟩
  | .ok b =>
    if !(strTruthy b.authorName) || !(strTruthy b.song) then
      ⟨400, .error "Missing authorName or song", false, false, false, none⟩
    else
      let originalLyrics := extractOriginalLyrics gRes
      let warned := geniusWarnedOf gRes
      let prompt := buildPrompt originalLyrics b.description
      if !(strTruthy (geminiKey env)) then
        ⟨500, .error "Missing GEMINI_API_KEY / OpenRouter API key", true, warned, false, none⟩
      else
        match cRes with
        | .error e => ⟨500, .error e.toMessage, true, warned, true, some prompt⟩
        | .ok c =>
          match jsPropE c "choices" with
          | .error e => ⟨500, .error e.toMessage, true, warned, true, some prompt⟩
          | .ok choices =>
            let message := jsOptProp (jsOptIndex0 choices) "message"
            ⟨200, .lyrics (extractLyricsFromMessage message), true, warned, true, some prompt⟩

/-! Client side: `src/modules/home/ui/views/home-view.tsx`. -/

/-- The three React state cells of `HomeView` that the submission flow
writes: `error`, `result` and `loading` (home-view.tsx lines 19-21).
`result` holds the raw value stored by `setResult`. -/
structure ClientState where
  error : Option String
  result : Option JsVal
  loading : Bool

/-- The initial client state: `useState(null)`, `useState(null)`,
`useState(false)`. -/
def initState : ClientState :=
  ⟨none, none, false⟩

/-- The three controlled inputs at submission time. -/
structure FormInput where
  authorName : String
  song : String
  description : String

/-- The first zod validation failure message of
`formSchema.safeParse` in key order (home-view.tsx lines 72-76 and
83-87), or none when all three fields are non-empty. -/
def validateFirstError (inp : FormInput) : Option String :=
  if inp.authorName = "" then some "Author name is required"
  else if inp.song = "" then some "Song is required"
  else if inp.description = "" then some "Description is required"
  else none

/-- The fate of the `fetch` call in `handleSubmit`: the 20-second timer
fired and `controller.abort()` made the call reject with an
`AbortError`; the call rejected with some other exception; or a
response arrived with a status, a body text (`none` when `res.text()`
itself rejected) and a JSON parse result for the body. -/
inductive FetchOutcome where
  | timeout : FetchOutcome
  | networkFailure : JsExn → FetchOutcome
  | response : Nat → Option String → Except JsExn JsVal → FetchOutcome

/-- The client-side timeout in milliseconds (home-view.tsx line 42). -/
def clientTimeoutMs : Nat := 20000

/-- The fixed message shown on an aborted call (home-view.tsx line 59). -/
def timeoutMsg : String := "Request timed out. Try again."

/-- The fixed message set by the outer catch (home-view.tsx line 66). -/
def genericFailureMsg : String := "Failed to generate lyrics. Please try again."

/-- The value stored by `setResult(data?.lyrics ?? \"\")`
(home-view.tsx line 56): the `lyrics` property when it is neither
`undefined` nor `null`, the empty string otherwise. -/
def dataLyrics (data : JsVal) : JsVal :=
  match jsOptProp data "lyrics" with
  | .vundefined => .vstr ""
  | .vnull => .vstr ""
  | v => v

/-- The message of the `Error` thrown on a non-2xx response
(home-view.tsx lines 52-53): the body text, or a status line when the
body text is empty. -/
def nonOkMessage (status : Nat) (bodyText : Option String) : String :=
  let text := bodyText.getD ""
  if text = "" then "Server returned " ++ toString status else text

/-- Whether a status counts as `res.ok`. -/
def resOk (status : Nat) : Bool :=
  200 ≤ status && status ≤ 299

/-- The sequence of client states written by `handleSubmit`
(home-view.tsx lines 29-70), starting from `s`, together with the
message of the exception passed to `console.error` when the outer catch
ran. The `finally` block always ends with `setLoading(false)`. -/
def handleSubmitTrace (s : ClientState) (outcome : FetchOutcome) :
    List ClientState × Option String :=
  let s1 : ClientState := ⟨none, s.result, s.loading⟩
  let s2 : ClientState := ⟨none, none, s.loading⟩
  let s3 : ClientState := ⟨none, none, true⟩
  match outcome with
  | .timeout =>
    ([s1, s2, s3, ⟨some timeoutMsg, none, true⟩, ⟨some timeoutMsg, none, false⟩], none)
  | .networkFailure e =>
    ([s1, s2, s3, ⟨some genericFailureMsg, none, true⟩,
      ⟨some genericFailureMsg, none, false⟩], some e.toMessage)
  | .response status bodyText json =>
    if resOk status then
      match json with
      | .ok data =>
        ([s1, s2, s3, ⟨none, some (dataLyrics data), true⟩,
          ⟨none, some (dataLyrics data), false⟩], none)
      | .error e =>
        ([s1, s2, s3, ⟨some genericFailureMsg, none, true⟩,
          ⟨some genericFailureMsg, none, false⟩], some e.toMessage)
    else
      ([s1, s2, s3, ⟨some genericFailureMsg, none, true⟩,
        ⟨some genericFailureMsg, none, false⟩],
       some (nonOkMessage status bodyText))

/-- The sequence of client states written by one form submission
(`onSubmit`, home-view.tsx lines 79-90): clear `error`, clear `result`,
then either show the first validation message or run `handleSubmit`. -/
def onSubmitTrace (s : ClientState) (inp : FormInput) (outcome : FetchOutcome) :
    List ClientState × Option String :=
  let s1 : ClientState := ⟨none, s.result, s.loading⟩
  let s2 : ClientState := ⟨none, none, s.loading⟩
  match validateFirstError inp with
  | some msg => ([s1, s2, ⟨some msg, none, s.loading⟩], none)
  | none =>
    let h := handleSubmitTrace s2 outcome
    ([s1, s2] ++ h.1, h.2)

/-- The client states reachable from the initial render through any
sequence of submissions, including every intermediate state of each
submission. -/
inductive Reachable : ClientState → Prop where
  | init : Reachable initState
  | step (s s' : ClientState) (inp : FormInput) (outcome : FetchOutcome) :
      Reachable s → s' ∈ (onSubmitTrace s inp outcome).1 → Reachable s'

/-! Theorems about the route handler. -/

/-- C1: for every POST request body in which `authorName` or `song` is
missing or empty, the handler returns status 400 with the exact body
`error: Missing authorName or song`, regardless of the value or absence
of `description`, and makes no outbound network call before returning. -/
theorem post_missing_fields_400 (b : Body) (env : Env)
    (gRes cRes : Except JsExn JsVal)
    (h : strTruthy b.authorName = false ∨ strTruthy b.song = false) :
    POST (.ok b) env gRes cRes =
      ⟨400, .error "Missing authorName or song", false, false, false, none⟩ := by
  rcases h with h | h <;> simp [POST, h]

/-- Witness for C1 at a body with an empty author name. -/
theorem post_missing_fields_400_witness :
    POST (.ok ⟨some "", some "Song", some "mood"⟩)
        ⟨none, some "key", none, none, none, none, none⟩ (.ok .vnull) (.ok .vnull) =
      ⟨400, .error "Missing authorName or song", false, false, false, none⟩ :=
  post_missing_fields_400 _ _ _ _ (Or.inl rfl)

/-- The key resolved by the code, guarded by its truthiness test,
agrees with the spec's ordered first-non-empty resolution. -/
theorem geminiKey_agrees_firstNonEmptyKey (env : Env) :
    (if strTruthy (geminiKey env) then geminiKey env else none) =
      firstNonEmptyKey [env.GEMINI_API_KEY, env.OPENROUTER_API_KEY, env.OPENAI_API_KEY] := by
  rcases env with ⟨_, g, o, a, _, _, _⟩
  rcases g with _ | g <;> rcases o with _ | o <;> rcases a with _ | a <;>
    simp [geminiKey, jsOrStr, firstNonEmptyKey, strTruthy] <;>
    split_ifs <;> simp_all [firstNonEmptyKey, strTruthy]

/-- C2: for every request with non-empty `authorName` and `song`, if
none of the ordered credential sources (GEMINI_API_KEY, then
OPENROUTER_API_KEY, then OPENAI_API_KEY, first non-empty wins) is
configured, the handler returns status 500 with the fixed message and
never starts the completion call; the code's key resolution agrees with
the ordered first-non-empty resolution. -/
theorem post_no_credentials_500 (b : Body) (env : Env)
    (gRes cRes : Except JsExn JsVal)
    (ha : strTruthy b.authorName = true) (hs : strTruthy b.song = true)
    (hk : firstNonEmptyKey [env.GEMINI_API_KEY, env.OPENROUTER_API_KEY,
        env.OPENAI_API_KEY] = none) :
    POST (.ok b) env gRes cRes =
      ⟨500, .error "Missing GEMINI_API_KEY / OpenRouter API key",
        true, geniusWarnedOf gRes, false, none⟩
    ∧ (if strTruthy (geminiKey env) then geminiKey env else none) =
        firstNonEmptyKey [env.GEMINI_API_KEY, env.OPENROUTER_API_KEY,
          env.OPENAI_API_KEY] := by
  have hspec := geminiKey_agrees_firstNonEmptyKey env
  rw [hk] at hspec
  have hfalse : strTruthy (geminiKey env) = false := by
    cases h : strTruthy (geminiKey env) with
    | false => rfl
    | true =>
      rw [h] at hspec
      simp at hspec
      rw [hspec] at h
      simp [strTruthy] at h
  constructor
  · simp [POST, ha, hs, hfalse]
  · rw [hfalse, hk]
    simp

/-- Witness for C2 at a valid body and an environment whose only
credential variable is set to the empty string. -/
theorem post_no_credentials_500_witness :
    POST (.ok ⟨some "Adele", some "Hello", some "sad"⟩)
        ⟨none, some "", none, none, none, none, none⟩
        (.ok (.vstr "la la")) (.ok .vnull) =
      ⟨500, .error "Missing GEMINI_API_KEY / OpenRouter API key",
        true, false, false, none⟩ :=
  (post_no_credentials_500 ⟨some "Adele", some "Hello", some "sad"⟩
    ⟨none, some "", none, none, none, none, none⟩
    (.ok (.vstr "la la")) (.ok .vnull) rfl rfl rfl).1

/-- When validation passes and a key is configured, the handler always
starts both outbound calls, logs the Genius warning exactly when the
Genius call threw, sends the prompt built from the extracted lyrics,
and never answers 400. -/
theorem POST_proceeds (b : Body) (env : Env) (gRes cRes : Except JsExn JsVal)
    (ha : strTruthy b.authorName = true) (hs : strTruthy b.song = true)
    (hk : strTruthy (geminiKey env) = true) :
    (POST (.ok b) env gRes cRes).geniusCalled = true
    ∧ (POST (.ok b) env gRes cRes).geniusWarned = geniusWarnedOf gRes
    ∧ (POST (.ok b) env gRes cRes).completionCalled = true
    ∧ (POST (.ok b) env gRes cRes).promptSent =
        some (buildPrompt (extractOriginalLyrics gRes) b.description)
    ∧ (POST (.ok b) env gRes cRes).status ≠ 400 := by
  rcases cRes with e | c
  · simp [POST, ha, hs, hk]
  · rcases hpc : jsPropE c "choices" with e | choices <;>
      simp [POST, ha, hs, hk, hpc]

/-- C3: for every request with non-empty `authorName` and `song` and a
configured key, if the Genius lyrics call throws for any reason the
request is not failed: the failure is logged as a warning, the
extracted original lyrics are the empty string, the prompt embeds the
empty original-lyrics section, the completion call is still made, and
the status and body agree with those of a run whose lyrics were the
empty string. -/
theorem post_genius_failure_recovered (b : Body) (env : Env) (e : JsExn)
    (cRes : Except JsExn JsVal)
    (ha : strTruthy b.authorName = true) (hs : strTruthy b.song = true)
    (hk : strTruthy (geminiKey env) = true) :
    extractOriginalLyrics (.error e) = ""
    ∧ (POST (.ok b) env (.error e) cRes).geniusWarned = true
    ∧ (POST (.ok b) env (.error e) cRes).completionCalled = true
    ∧ (POST (.ok b) env (.error e) cRes).promptSent =
        some (buildPrompt "" b.description)
    ∧ (POST (.ok b) env (.error e) cRes).status =
        (POST (.ok b) env (.ok (.vstr "")) cRes).status
    ∧ (POST (.ok b) env (.error e) cRes).respBody =
        (POST (.ok b) env (.ok (.vstr "")) cRes).respBody := by
  obtain ⟨_, h2, h3, h4, _⟩ := POST_proceeds b env (.error e) cRes ha hs hk
  refine ⟨rfl, ?_, h3, ?_, ?_, ?_⟩
  · rw [h2]; rfl
  · rw [h4]; rfl
  · rcases cRes with e' | c
    · simp [POST, ha, hs, hk]
    · rcases hpc : jsPropE c "choices" with e'' | choices <;>
        simp [POST, ha, hs, hk, hpc]
  · rcases cRes with e' | c
    · simp [POST, ha, hs, hk]
    · rcases hpc : jsPropE c "choices" with e'' | choices <;>
        simp [POST, ha, hs, hk, hpc]

/-- Witness for C3: a thrown Genius call next to an empty-lyrics run. -/
theorem post_genius_failure_recovered_witness :
    extractOriginalLyrics (.error (.error "boom")) = ""
    ∧ (POST (.ok ⟨some "Adele", some "Hello", some "sad"⟩)
        ⟨none, some "key", none, none, none, none, none⟩
        (.error (.error "boom")) (.ok .vnull)).geniusWarned = true
    ∧ (POST (.ok ⟨some "Adele", some "Hello", some "sad"⟩)
        ⟨none, some "key", none, none, none, none, none⟩
        (.error (.error "boom")) (.ok .vnull)).completionCalled = true
    ∧ (POST (.ok ⟨some "Adele", some "Hello", some "sad"⟩)
        ⟨none, some "key", none, none, none, none, none⟩
        (.error (.error "boom")) (.ok .vnull)).promptSent =
        some (buildPrompt "" (some "sad"))
    ∧ (POST (.ok ⟨some "Adele", some "Hello", some "sad"⟩)
        ⟨none, some "key", none, none, none, none, none⟩
        (.error (.error "boom")) (.ok .vnull)).status =
        (POST (.ok ⟨some "Adele", some "Hello", some "sad"⟩)
          ⟨none, some "key", none, none, none, none, none⟩
          (.ok (.vstr "")) (.ok .vnull)).status
    ∧ (POST (.ok ⟨some "Adele", some "Hello", some "sad"⟩)
        ⟨none, some "key", none, none, none, none, none⟩
        (.error (.error "boom")) (.ok .vnull)).respBody =
        (POST (.ok ⟨some "Adele", some "Hello", some "sad"⟩)
          ⟨none, some "key", none, none, none, none, none⟩
          (.ok (.vstr "")) (.ok .vnull)).respBody :=
  post_genius_failure_recovered ⟨some "Adele", some "Hello", some "sad"⟩
    ⟨none, some "key", none, none, none, none, none⟩
    (.error "boom") (.ok .vnull) rfl rfl rfl

/-- C10: for every request body with non-empty `authorName` and `song`
but `description` absent entirely, the handler does not reject the
request; it proceeds, and the Description/Mood section of the prompt
sent to the completion provider contains the literal text `undefined`
rather than empty text. -/
theorem post_missing_description_undefined (a s : String) (env : Env)
    (gRes cRes : Except JsExn JsVal)
    (ha : a ≠ "") (hs : s ≠ "") (hk : strTruthy (geminiKey env) = true) :
    (POST (.ok ⟨some a, some s, none⟩) env gRes cRes).status ≠ 400
    ∧ (POST (.ok ⟨some a, some s, none⟩) env gRes cRes).completionCalled = true
    ∧ ∃ pre post : String,
        (POST (.ok ⟨some a, some s, none⟩) env gRes cRes).promptSent =
          some (pre ++ ("Description/Mood:\nundefined" ++ post)) := by
  have ha' : strTruthy (some a) = true := by simp [strTruthy, ha]
  have hs' : strTruthy (some s) = true := by simp [strTruthy, hs]
  obtain ⟨_, _, h3, h4, h5⟩ :=
    POST_proceeds ⟨some a, some s, none⟩ env gRes cRes ha' hs' hk
  refine ⟨h5, h3, promptIntro ++ extractOriginalLyrics gRes ++ "\n\n",
    promptTail, ?_⟩
  rw [h4]
  have hsplit : buildPrompt (extractOriginalLyrics gRes) none =
      promptIntro ++ extractOriginalLyrics gRes ++ "\n\n" ++
        ("Description/Mood:\nundefined" ++ promptTail) := by
    show promptIntro ++ extractOriginalLyrics gRes ++ promptMid ++
        "undefined" ++ promptTail = _
    rw [String.append_assoc, String.append_assoc, String.append_assoc,
      String.append_assoc, String.append_assoc]
    rfl
  rw [hsplit]

/-- Witness for C10 at a concrete body without a description. -/
theorem post_missing_description_undefined_witness :
    (POST (.ok ⟨some "Adele", some "Hello", none⟩)
        ⟨none, some "key", none, none, none, none, none⟩
        (.ok (.vstr "la")) (.ok .vnull)).status ≠ 400
    ∧ (POST (.ok ⟨some "Adele", some "Hello", none⟩)
        ⟨none, some "key", none, none, none, none, none⟩
        (.ok (.vstr "la")) (.ok .vnull)).completionCalled = true
    ∧ ∃ pre post : String,
        (POST (.ok ⟨some "Adele", some "Hello", none⟩)
          ⟨none, some "key", none, none, none, none, none⟩
          (.ok (.vstr "la")) (.ok .vnull)).promptSent =
          some (pre ++ ("Description/Mood:\nundefined" ++ post)) :=
  post_missing_description_undefined "Adele" "Hello"
    ⟨none, some "key", none, none, none, none, none⟩
    (.ok (.vstr "la")) (.ok .vnull) (by decide) (by decide) rfl

/-- C7 counterexample: when the Genius call resolves to `undefined`,
the code yields the empty lyrics string even though `undefined` has no
JSON serialization to truncate (`JSON.stringify` yields no string, and
even its `String(...)` rendering is the non-empty text `undefined`), so
not every non-string, non-lyrics-object value yields a truncated
serialization. -/
theorem extractOriginalLyrics_undefined_cex :
    extractOriginalLyrics (.ok .vundefined) = ""
    ∧ jsonStringify .vundefined = none
    ∧ jsSlice (jsToString .vundefined) 4000 ≠ "" := by
  exact ⟨rfl, rfl, by decide⟩

/-- C7 amended: a plain string result of the lyrics provider is used
directly; an object carrying a string `lyrics` field yields that field;
any other value with a JSON serialization yields that serialization
truncated to at most 4000 characters; a value without a JSON
serialization (`undefined`) yields the empty string because the
truncation attempt throws and is swallowed by the best-effort catch;
and a thrown call yields the empty string. -/
theorem extractOriginalLyrics_shape_rules (v : JsVal) :
    (∀ s, v = .vstr s → extractOriginalLyrics (.ok v) = s)
    ∧ (∀ s, objLyricsField v = some s → extractOriginalLyrics (.ok v) = s)
    ∧ ((∀ s, v ≠ .vstr s) → objLyricsField v = none →
        ∀ s, jsonStringify v = some s →
          extractOriginalLyrics (.ok v) = jsSlice s 4000
          ∧ (extractOriginalLyrics (.ok v)).length ≤ 4000)
    ∧ ((∀ s, v ≠ .vstr s) → objLyricsField v = none →
        jsonStringify v = none → extractOriginalLyrics (.ok v) = "")
    ∧ (∀ e : JsExn, extractOriginalLyrics (.error e) = "") := by
  refine ⟨?_, ?_, ?_, ?_, fun _ => rfl⟩
  · rintro s rfl; rfl
  · intro s hobj
    cases v <;> simp [objLyricsField] at hobj
    simp [extractOriginalLyrics, objLyricsField, hobj]
  · intro hns hobj s hser
    have hext : extractOriginalLyrics (.ok v) = jsSlice s 4000 := by
      cases v with
      | vstr t => exact absurd rfl (hns t)
      | _ => simp [extractOriginalLyrics, hobj, hser]
    refine ⟨hext, ?_⟩
    rw [hext]
    exact (s.data.length_take_le 4000)
  · intro hns hobj hser
    cases v with
    | vstr t => exact absurd rfl (hns t)
    | _ => simp [extractOriginalLyrics, hobj, hser]

/-- Witness for C7 amended at a numeric-field object, whose truncated
serialization is kept. -/
theorem extractOriginalLyrics_shape_rules_witness :
    extractOriginalLyrics (.ok (.vobj [("x", .vnum 3)])) =
        jsSlice "\x7b\"x\":3\x7d" 4000
    ∧ (extractOriginalLyrics (.ok (.vobj [("x", .vnum 3)]))).length ≤ 4000 :=
  (extractOriginalLyrics_shape_rules (.vobj [("x", .vnum 3)])).2.2.1
    (fun _ h => JsVal.noConfusion h) rfl "\x7b\"x\":3\x7d" rfl

/-- A truthy non-string message is handled by the content branch. -/
theorem extractLyricsFromMessage_eq_content (m : JsVal)
    (hm : jsTruthy m = true) (hms : ∀ s, m ≠ .vstr s) :
    extractLyricsFromMessage m = extractLyricsContent m := by
  cases m with
  | vstr s => exact absurd rfl (hms s)
  | vundefined => simp [jsTruthy] at hm
  | vnull => simp [jsTruthy] at hm
  | vbool b =>
    cases b with
    | false => simp [jsTruthy] at hm
    | true => rfl
  | vnum n => simp [extractLyricsFromMessage, hm]
  | varr xs => rfl
  | vobj fs => rfl

/-- C4 counterexample: a message whose `content` is the empty string (a
plain string) is not used as-is; because the empty string is falsy, the
code serializes the whole message object instead. -/
theorem extractLyrics_empty_content_cex :
    extractLyricsFromMessage (.vobj [("content", .vstr "")]) =
        "\x7b\"content\":\"\"\x7d"
    ∧ ("\x7b\"content\":\"\"\x7d" : String) ≠ "" := by
  exact ⟨rfl, by decide⟩

/-- C4 amended: an absent (`undefined`) message extracts to the empty
string and the handler then answers 200 with empty lyrics; a message
whose `content` is a truthy plain string uses it as-is; an array
content is the in-order separator-free concatenation of its parts (a
string part itself, the `text` field of an object part carrying a
string `text`, empty text otherwise); any other truthy content is
converted with `String(...)`; and a falsy content (empty string, null,
absent) makes the code serialize the whole message object to JSON. -/
theorem extractLyrics_message_rules :
    (extractLyricsFromMessage .vundefined = "")
    ∧ (∀ (b : Body) (env : Env) (gRes : Except JsExn JsVal),
        strTruthy b.authorName = true → strTruthy b.song = true →
        strTruthy (geminiKey env) = true →
        POST (.ok b) env gRes (.ok (.vobj [("choices", .varr [])])) =
          ⟨200, .lyrics "", true, geniusWarnedOf gRes, true,
            some (buildPrompt (extractOriginalLyrics gRes) b.description)⟩)
    ∧ (∀ (m : JsVal) (s : String), jsTruthy m = true →
        jsOptProp m "content" = .vstr s → s ≠ "" →
        extractLyricsFromMessage m = s)
    ∧ (∀ (m : JsVal) (xs : List JsVal), jsTruthy m = true →
        jsOptProp m "content" = .varr xs →
        extractLyricsFromMessage m = String.join (xs.map partText))
    ∧ (∀ s, partText (.vstr s) = s)
    ∧ (∀ (fs : List (String × JsVal)) (t : String),
        lookupField fs "text" = some (.vstr t) → partText (.vobj fs) = t)
    ∧ (∀ (m c : JsVal), jsTruthy m = true → (∀ s, m ≠ .vstr s) →
        jsOptProp m "content" = c → jsTruthy c = true →
        (∀ s, c ≠ .vstr s) → (∀ xs, c ≠ .varr xs) →
        extractLyricsFromMessage m = jsToString c)
    ∧ (∀ m : JsVal, jsTruthy m = true → (∀ s, m ≠ .vstr s) →
        jsTruthy (jsOptProp m "content") = false →
        extractLyricsFromMessage m = (jsonStringify m).getD "") := by
  refine ⟨rfl, ?_, ?_, ?_, fun _ => rfl, ?_, ?_, ?_⟩
  · intro b env gRes ha hs hk
    simp [POST, ha, hs, hk, jsPropE, lookupField, jsOptIndex0, jsOptProp,
      extractLyricsFromMessage, jsTruthy]
  · intro m s hm hc hs
    cases m <;> simp [jsOptProp] at hc
    simp [extractLyricsFromMessage, extractLyricsContent, jsOptProp, hc,
      jsTruthy, hs]
  · intro m xs hm hc
    cases m <;> simp [jsOptProp] at hc
    simp [extractLyricsFromMessage, extractLyricsContent, jsOptProp, hc,
      jsTruthy]
  · intro fs t hf
    simp [partText, hf]
  · intro m c hm hms hc hct hcs hca
    rw [extractLyricsFromMessage_eq_content m hm hms]
    simp only [extractLyricsContent, hc, hct, if_true]
  · intro m hm hms hcf
    rw [extractLyricsFromMessage_eq_content m hm hms]
    simp [extractLyricsContent, hcf]

/-- Witness for C4 amended: two text parts concatenate with no
separator. -/
theorem extractLyrics_message_rules_witness :
    extractLyricsFromMessage
        (.vobj [("content", .varr
          [.vobj [("type", .vstr "text"), ("text", .vstr "foo")],
           .vobj [("type", .vstr "text"), ("text", .vstr "bar")]])]) =
      "foobar" :=
  Eq.trans
    (extractLyrics_message_rules.2.2.2.1
      (.vobj [("content", .varr
        [.vobj [("type", .vstr "text"), ("text", .vstr "foo")],
         .vobj [("type", .vstr "text"), ("text", .vstr "bar")]])])
      [.vobj [("type", .vstr "text"), ("text", .vstr "foo")],
       .vobj [("type", .vstr "text"), ("text", .vstr "bar")]]
      rfl rfl)
    rfl

/-- C8: every exception thrown at a step other than the separately
handled Genius call is converted by the top-level catch into a 500
response whose body carries the exception message: the message of an
`Error` instance, the `String(...)` rendering of any other thrown
value. Both the body-parse step and the completion call are covered. -/
theorem post_top_level_catch (e : JsExn) (b : Body) (env : Env)
    (gRes cRes : Except JsExn JsVal)
    (ha : strTruthy b.authorName = true) (hs : strTruthy b.song = true)
    (hk : strTruthy (geminiKey env) = true) :
    POST (.error e) env gRes cRes =
      ⟨500, .error e.toMessage, false, false, false, none⟩
    ∧ (POST (.ok b) env gRes (.error e)).status = 500
    ∧ (POST (.ok b) env gRes (.error e)).respBody = .error e.toMessage
    ∧ (∀ m, JsExn.toMessage (.error m) = m)
    ∧ (∀ v, JsExn.toMessage (.other v) = jsToString v) := by
  refine ⟨rfl, ?_, ?_, fun _ => rfl, fun _ => rfl⟩ <;>
    simp [POST, ha, hs, hk]

/-- Witness for C8 at a thrown non-Error value on the completion call
and a thrown Error on body parsing. -/
theorem post_top_level_catch_witness :
    POST (.error (.error "invalid json"))
        ⟨none, some "key", none, none, none, none, none⟩
        (.ok .vnull) (.ok .vnull) =
      ⟨500, .error (JsExn.toMessage (.error "invalid json")),
        false, false, false, none⟩
    ∧ (POST (.ok ⟨some "Adele", some "Hello", some "sad"⟩)
        ⟨none, some "key", none, none, none, none, none⟩
        (.ok .vnull) (.error (.error "invalid json"))).status = 500 :=
  ⟨(post_top_level_catch (.error "invalid json")
      ⟨some "Adele", some "Hello", some "sad"⟩
      ⟨none, some "key", none, none, none, none, none⟩
      (.ok .vnull) (.ok .vnull) rfl rfl rfl).1,
   (post_top_level_catch (.error "invalid json")
      ⟨some "Adele", some "Hello", some "sad"⟩
      ⟨none, some "key", none, none, none, none, none⟩
      (.ok .vnull) (.ok .vnull) rfl rfl rfl).2.1⟩

/-! Theorems about the form client. -/

/-- Every state written while `handleSubmit` runs has `error` empty or
`result` empty. -/
theorem handleSubmitTrace_at_most_one (s : ClientState) (outcome : FetchOutcome)
    (s' : ClientState) (hmem : s' ∈ (handleSubmitTrace s outcome).1) :
    s'.error = none ∨ s'.result = none := by
  cases outcome with
  | timeout =>
    simp [handleSubmitTrace] at hmem
    rcases hmem with rfl | rfl | rfl | rfl | rfl <;> simp
  | networkFailure e =>
    simp [handleSubmitTrace] at hmem
    rcases hmem with rfl | rfl | rfl | rfl | rfl <;> simp
  | response status bodyText json =>
    by_cases hok : resOk status
    · cases json with
      | error e =>
        simp [handleSubmitTrace, hok] at hmem
        rcases hmem with rfl | rfl | rfl | rfl | rfl <;> simp
      | ok data =>
        simp [handleSubmitTrace, hok] at hmem
        rcases hmem with rfl | rfl | rfl | rfl | rfl <;> simp
    · simp [handleSubmitTrace, hok] at hmem
      rcases hmem with rfl | rfl | rfl | rfl | rfl <;> simp

/-- Every state written during a submission has `error` empty or
`result` empty, whatever state the submission started from. -/
theorem onSubmitTrace_at_most_one (s : ClientState) (inp : FormInput)
    (outcome : FetchOutcome) (s' : ClientState)
    (hmem : s' ∈ (onSubmitTrace s inp outcome).1) :
    s'.error = none ∨ s'.result = none := by
  cases hv : validateFirstError inp with
  | some msg =>
    simp [onSubmitTrace, hv] at hmem
    rcases hmem with rfl | rfl | rfl <;> simp
  | none =>
    simp [onSubmitTrace, hv] at hmem
    rcases hmem with rfl | rfl | hmem
    · simp
    · simp
    · exact handleSubmitTrace_at_most_one _ outcome s' hmem

/-- C6 counterexample: in the initial client state, reachable before
any submission, `result` and `error` are both null, so it is not true
that exactly one of them is non-null at every point in time. -/
theorem client_exactly_one_cex :
    Reachable initState ∧ initState.error = none ∧ initState.result = none :=
  ⟨Reachable.init, rfl, rfl⟩

/-- C6 amended: at every reachable point in time at most one of
`result` and `error` is non-null, and every submission sets `error` and
then `result` to null before any other work starts. -/
theorem client_at_most_one (s t : ClientState) (inp : FormInput)
    (outcome : FetchOutcome) (hs : Reachable s) :
    (s.error = none ∨ s.result = none)
    ∧ (onSubmitTrace t inp outcome).1.take 2 =
        [⟨none, t.result, t.loading⟩, ⟨none, none, t.loading⟩] := by
  constructor
  · induction hs with
    | init => exact Or.inl rfl
    | step s1 s2 inp1 o1 h1 hmem ih =>
      exact onSubmitTrace_at_most_one s1 inp1 o1 s2 hmem
  · cases hv : validateFirstError inp with
    | some msg => simp only [onSubmitTrace, hv]; rfl
    | none => simp only [onSubmitTrace, hv]; rfl

/-- Witness for C6 amended at the initial state. -/
theorem client_at_most_one_witness :
    (initState.error = none ∨ initState.result = none)
    ∧ (onSubmitTrace initState ⟨"", "", ""⟩ .timeout).1.take 2 =
        [⟨none, initState.result, initState.loading⟩,
         ⟨none, none, initState.loading⟩] :=
  client_at_most_one initState initState ⟨"", "", ""⟩ .timeout Reachable.init

/-- C9: when the fetch is cancelled by the 20-second timer, the last
state of the submission shows exactly the fixed timeout message, with
no result and loading back to false; the timer constant is 20000
milliseconds. -/
theorem client_timeout_fixed_message (s : ClientState) (inp : FormInput)
    (hv : validateFirstError inp = none) :
    (onSubmitTrace s inp .timeout).1.getLast? =
      some ⟨some timeoutMsg, none, false⟩
    ∧ timeoutMsg = "Request timed out. Try again."
    ∧ clientTimeoutMs = 20000 := by
  refine ⟨?_, rfl, rfl⟩
  simp only [onSubmitTrace, hv]
  rfl

/-- Witness for C9 at a valid concrete input. -/
theorem client_timeout_fixed_message_witness :
    (onSubmitTrace initState ⟨"a", "b", "c"⟩ .timeout).1.getLast? =
      some ⟨some timeoutMsg, none, false⟩
    ∧ timeoutMsg = "Request timed out. Try again."
    ∧ clientTimeoutMs = 20000 :=
  client_timeout_fixed_message initState ⟨"a", "b", "c"⟩ rfl

/-- C5 counterexample: on a non-2xx response with body text `boom` the
error surfaced to the user is the fixed generic message, not `boom`;
with an empty body it is the same generic message, not the
status-derived `Server returned 500`. -/
theorem client_nonok_body_not_surfaced_cex :
    (onSubmitTrace initState ⟨"a", "b", "c"⟩
        (.response 500 (some "boom") (.ok .vnull))).1.getLast? =
      some ⟨some genericFailureMsg, none, false⟩
    ∧ genericFailureMsg ≠ "boom"
    ∧ (onSubmitTrace initState ⟨"a", "b", "c"⟩
        (.response 500 none (.ok .vnull))).1.getLast? =
      some ⟨some genericFailureMsg, none, false⟩
    ∧ genericFailureMsg ≠ "Server returned 500" :=
  ⟨rfl, by decide, rfl, by decide⟩

/-- C5 amended: on every non-2xx response the client throws an `Error`
whose message is the body text (or a status line when the body is
empty), but that message is only logged to the console; the error
surfaced to the user is always the fixed generic failure message, and
no state of the submission ever shows any other error text, so no
internal stack trace is surfaced. -/
theorem client_nonok_generic_error (s : ClientState) (inp : FormInput)
    (status : Nat) (bodyText : Option String) (json : Except JsExn JsVal)
    (hv : validateFirstError inp = none) (hnk : resOk status = false) :
    (onSubmitTrace s inp (.response status bodyText json)).1.getLast? =
      some ⟨some genericFailureMsg, none, false⟩
    ∧ (onSubmitTrace s inp (.response status bodyText json)).2 =
      some (nonOkMessage status bodyText)
    ∧ ∀ s' ∈ (onSubmitTrace s inp (.response status bodyText json)).1,
        s'.error = none ∨ s'.error = some genericFailureMsg := by
  have ht : onSubmitTrace s inp (.response status bodyText json) =
      ([⟨none, s.result, s.loading⟩, ⟨none, none, s.loading⟩,
        ⟨none, none, s.loading⟩, ⟨none, none, s.loading⟩,
        ⟨none, none, true⟩, ⟨some genericFailureMsg, none, true⟩,
        ⟨some genericFailureMsg, none, false⟩],
       some (nonOkMessage status bodyText)) := by
    simp only [onSubmitTrace, hv, handleSubmitTrace]
    rw [hnk]
    rfl
  refine ⟨?_, ?_, ?_⟩
  · rw [ht]; rfl
  · rw [ht]
  · intro s' hmem
    rw [ht] at hmem
    simp at hmem
    rcases hmem with rfl | rfl | rfl | rfl | rfl <;> simp

/-- Witness for C5 amended at a concrete 404 with an empty body. -/
theorem client_nonok_generic_error_witness :
    (onSubmitTrace initState ⟨"a", "b", "c"⟩
        (.response 404 none (.ok .vnull))).1.getLast? =
      some ⟨some genericFailureMsg, none, false⟩
    ∧ (onSubmitTrace initState ⟨"a", "b", "c"⟩
        (.response 404 none (.ok .vnull))).2 =
      some (nonOkMessage 404 none) :=
  ⟨(client_nonok_generic_error initState ⟨"a", "b", "c"⟩ 404 none
      (.ok .vnull) rfl rfl).1,
   (client_nonok_generic_error initState ⟨"a", "b", "c"⟩ 404 none
      (.ok .vnull) rfl rfl).2.1⟩

end Impersonator
